import Mathlib

/-!
Verification of the okta-yoink token extractor against its design spec.

The definitions below are a shallow embedding of the Python sources:
  src/okta_yoink/token_extractor.py
  src/src/okta_token_automation/token_extractor.py
  src/src/okta_token_automation/main.py

Header values coming back from the httpbin JSON echo are either strings or
lists of strings; the code handles both shapes explicitly, so the embedding
does too.  Machinery that only does I/O or logging is not modelled; the
control flow and string processing are translated line by line.

Python string primitives (`split`, `strip`, `lower`, `startswith`, `in`,
`join`) are re-implemented here by structural recursion on the character
list of a `String`, so that every definition evaluates inside the kernel.
Each helper is documented with the Python operation it implements.
-/

set_option autoImplicit false

namespace OktaYoink

/-- Python `pre` being a prefix of `s`, on character lists. -/
def listIsPrefix : List Char → List Char → Bool
  | [], _ => true
  | _ :: _, [] => false
  | a :: as, b :: bs => a == b && listIsPrefix as bs

/-- Python substring test `pat in s`, on character lists. -/
def listContains (pat : List Char) : List Char → Bool
  | [] => listIsPrefix pat []
  | c :: cs => listIsPrefix pat (c :: cs) || listContains pat cs

/-- Python substring test `pat in s` on strings. -/
def strContains (s pat : String) : Bool :=
  listContains pat.data s.data

/-- Python `s.startswith(pre)`. -/
def pyStartsWith (s pre : String) : Bool :=
  listIsPrefix pre.data s.data

/-- Whitespace characters stripped by Python `str.strip()` (the ASCII ones;
the program only ever strips tokens and cookie entries, which are ASCII). -/
def isSpaceChar (c : Char) : Bool :=
  c == ' ' || c == '\t' || c == '\n' || c == '\r'

/-- Drop leading whitespace from a character list. -/
def dropLeading : List Char → List Char
  | [] => []
  | c :: cs => if isSpaceChar c then dropLeading cs else c :: cs

/-- Python `s.strip()`. -/
def pyStrip (s : String) : String :=
  String.mk (dropLeading (dropLeading s.data.reverse).reverse)

/-- Python `str.lower()` on one character (ASCII range, which covers every
header name and marker string the program compares). -/
def lowerChar (c : Char) : Char :=
  if 65 ≤ c.toNat && c.toNat ≤ 90 then Char.ofNat (c.toNat + 32) else c

/-- Python `s.lower()`. -/
def pyLower (s : String) : String :=
  String.mk (s.data.map lowerChar)

/-- Helper for `splitChar`: accumulate the current piece (reversed). -/
def splitCharAux (sep : Char) : List Char → List Char → List String
  | [], acc => [String.mk acc.reverse]
  | c :: cs, acc =>
    if c == sep then String.mk acc.reverse :: splitCharAux sep cs []
    else splitCharAux sep cs (c :: acc)

/-- Python `s.split(sep)` for a one-character separator (the program only
splits on `;` and `=`). -/
def splitChar (s : String) (sep : Char) : List String :=
  splitCharAux sep s.data []

/-- Helper for `splitOnce`: scan for the first separator. -/
def splitOnceAux (sep : Char) : List Char → List Char → Option (String × String)
  | [], _ => none
  | c :: cs, acc =>
    if c == sep then some (String.mk acc.reverse, String.mk cs)
    else splitOnceAux sep cs (c :: acc)

/-- Python `s.split(sep, 1)`: split at the first occurrence of `sep` only.
Returns `none` when `sep` does not occur (the code always guards the access
to the right-hand side with a containment or startswith check). -/
def splitOnce (s : String) (sep : Char) : Option (String × String) :=
  splitOnceAux sep s.data []

/-- Python `sep.join(parts)`. -/
def joinWith (sep : String) : List String → String
  | [] => ""
  | [x] => x
  | x :: xs => x ++ sep ++ joinWith sep xs

/-- A header value as parsed from the httpbin JSON body: the code handles a
plain string or a list of strings (isinstance checks in the Python source). -/
inductive HVal where
  | str (s : String)
  | list (l : List String)
  deriving DecidableEq, Repr

/-- Python truthiness for the header values the code tests with `if value:`
(an empty string and an empty list are falsy). -/
def HVal.isTruthy : HVal → Bool
  | .str s => s ≠ ""
  | .list l => l ≠ []

/-- The parsed header map `data["headers"]` (a JSON object: string keys in
insertion order, which Python dict iteration follows). -/
def Headers : Type := List (String × HVal)

/-- Python `headers.get(k)` restricted to the first matching key (a Python
dict has unique keys, so first-match lookup coincides with dict lookup). -/
def lookupHeader (hs : Headers) (k : String) : Option HVal :=
  (hs.find? (fun p => p.1 == k)).map (fun p => p.2)

/-- Source `token_extractor.py`: a Cookie header that is a list is joined with
`"; "` before the cookie entries are scanned. -/
def joinCookieHeader : HVal → String
  | .str s => s
  | .list l => joinWith "; " l

/-- Source `token_extractor.py`: an Authorization header that is a list is joined
with spaces (okta_yoink variant, the canonical rule adopted by the spec). -/
def joinAuthHeader : HVal → String
  | .str s => s
  | .list l => joinWith " " l

/-- One iteration of the cookie-entry loop in `extract_token_via_requests`,
method 1: strip the `;`-delimited entry, keep it only if it starts with
`_oauth2_proxy=` and the part after the first `=` is non-blank. -/
def cookieEntryToken (c : String) : Option String :=
  let c := pyStrip c
  if pyStartsWith c "_oauth2_proxy=" then
    match splitOnce c '=' with
    | some p => if pyStrip p.2 ≠ "" then some p.2 else none
    | none => none
  else none

/-- Method 1 of the token location rule: scan the `;`-split cookie header
for the first entry that `cookieEntryToken` accepts. -/
def cookieRuleFind (s : String) : Option String :=
  (splitChar s ';').findSome? cookieEntryToken

/-- Method 1 applied to the whole header map: `headers.get("Cookie", "")`,
skip when falsy, join a list value with `"; "`, then scan the entries. -/
def method1 (hs : Headers) : Option String :=
  let ch := (lookupHeader hs "Cookie").getD (.str "")
  if ch.isTruthy then cookieRuleFind (joinCookieHeader ch) else none

/-- Method 2 header-name test: the lowered name contains both `oauth2`
and `proxy`. -/
def isOauth2ProxyName (name : String) : Bool :=
  strContains (pyLower name) "oauth2" && strContains (pyLower name) "proxy"

/-- Method 2 value handling for a string value: the part after the first
`=` when the value contains one, otherwise the whole value. -/
def oauth2HeaderToken (v : String) : String :=
  match splitOnce v '=' with
  | some p => p.2
  | none => v

/-- Result of the token location rule applied to a header map. -/
inductive ExtractResult where
  /-- A token was returned, in the shape `_oauth2_proxy=VALUE`. -/
  | token (t : String)
  /-- The final `OktaTokenExtractionError` reporting no token found. -/
  | notFound
  /-- The wrapped error produced when method 2 matches a header whose value
  is a list: Python then calls string methods on the list, the resulting
  `AttributeError` is wrapped into an `OktaTokenExtractionError`. -/
  | typeErr
  deriving DecidableEq, Repr

/-- Method 2 of the token location rule: the loop over `headers.items()`
breaks at the first name matching `isOauth2ProxyName`; a falsy value fails
the `if oauth2_header:` guard; a string value yields a token when the
extracted part is non-blank, otherwise control falls through to method 3;
a (truthy) list value makes the Python code crash into a wrapped error.
`none` means control reaches method 3. -/
def method2 (hs : Headers) : Option ExtractResult :=
  match hs.find? (fun p => isOauth2ProxyName p.1) with
  | none => none
  | some q =>
    if q.2.isTruthy then
      match q.2 with
      | .str v =>
        let t := oauth2HeaderToken v
        if pyStrip t ≠ "" then some (.token ("_oauth2_proxy=" ++ t)) else none
      | .list _ => some .typeErr
    else none

/-- Method 3 input: `headers.get("Authorization", "")`, joined with spaces
when it is a list (okta_yoink variant, the rule the spec adopts). -/
def authJoined (hs : Headers) : String :=
  joinAuthHeader ((lookupHeader hs "Authorization").getD (.str ""))

/-- Method 3 of the token location rule: require the lowered Authorization
string to contain `_oauth2_proxy`, split at the first `=` and accept a
non-blank right-hand side; otherwise the token-not-found error. -/
def method3 (hs : Headers) : ExtractResult :=
  let s := authJoined hs
  if strContains (pyLower s) "_oauth2_proxy" then
    match splitOnce s '=' with
    | some p => if pyStrip p.2 ≠ "" then .token ("_oauth2_proxy=" ++ p.2) else .notFound
    | none => .notFound
  else .notFound

/-- The token location rule of `extract_token_via_requests` (shared verbatim
by `extract_token_from_internal_service`): methods 1, 2, 3 in order, the
first decisive outcome wins. -/
def extractToken (hs : Headers) : ExtractResult :=
  match method1 hs with
  | some v => .token ("_oauth2_proxy=" ++ v)
  | none =>
    match method2 hs with
    | some r => r
    | none => method3 hs

/-- The single error class of the program: every failure is raised as (or
wrapped into) `OktaTokenExtractionError` with a message. -/
inductive Err where
  | extractionError (msg : String)
  deriving DecidableEq, Repr

/-! ## save_token (`token_extractor.py`, both variants)

`save_token` ensures the parent directory of the token file exists, writes
the token string as the entire file content, and sets mode `0o600` (384).
The filesystem is modelled by the state of the one target file; each of the
three primitives may fail, and any failure is wrapped into the extraction
error by the `except` clause. -/

/-- State of the configured token file and its parent directory. -/
structure FileState where
  parentExists : Bool
  content : Option String
  mode : Option Nat
  deriving DecidableEq, Repr

/-- Which of the three filesystem primitives used by `save_token` fail. -/
structure SaveOps where
  mkdirFails : Bool
  writeFails : Bool
  chmodFails : Bool
  deriving DecidableEq, Repr

/-- Function `save_token`: mkdir(parents=True, exist_ok=True) on the parent, then
`write_text(token, encoding="utf-8")` (exactly the token, no trailing
newline), then `chmod(0o600)`; any exception is re-raised as
`OktaTokenExtractionError("Failed to save token: ...")`. -/
def save_token (ops : SaveOps) (token : String) (fs : FileState) :
    Except Err FileState :=
  if ops.mkdirFails then .error (.extractionError "Failed to save token") else
  let fs := { fs with parentExists := true }
  if ops.writeFails then .error (.extractionError "Failed to save token") else
  let fs := { fs with content := some token }
  if ops.chmodFails then .error (.extractionError "Failed to save token") else
  .ok { fs with mode := some 384 }

/-! ## run / cleanup (`token_extractor.py`), main (`main.py`)

The orchestrator is modelled by explicit state passing.  The outcome of
each externally-driven step (driver setup, login, MFA, the two extraction
strategies, saving) is an input, packaged in `RunEnv`; the state tracks the
`self.driver` field, how many times `driver.quit()` was invoked, and which
extraction strategies were attempted. -/

/-- Outcomes of the individual steps `run` sequences.  `quit` failures are
passed separately to `runModel` because teardown is not a step of the
`try` body. -/
structure RunEnv where
  setupOk : Bool
  loginR : Except Err Unit
  mfaR : Except Err Unit
  reqR : Except Err String
  scrapeR : Except Err String
  saveR : Except Err Unit

/-- Mutable state of an `OktaTokenExtractor` run: whether `self.driver` is
set, how many times `driver.quit()` has been invoked, and which extraction
strategies have been attempted. -/
structure St where
  driver : Bool
  quits : Nat
  triedReq : Bool
  triedScrape : Bool
  deriving DecidableEq, Repr

/-- The initial extractor state: no driver, nothing attempted. -/
def initSt : St :=
  { driver := false, quits := 0, triedReq := false, triedScrape := false }

/-- Call `driver.quit()`: may raise (browser already gone). -/
def quitDriver (raises : Bool) : Except Err Unit :=
  if raises then .error (.extractionError "quit failed") else .ok ()

/-- Function `cleanup`: if `self.driver` is set, invoke `driver.quit()` inside a
`try` whose `except` swallows any error and whose `finally` sets
`self.driver = None`.  The invocation is counted whether or not it raises;
no exception escapes, so the model returns a plain state. -/
def cleanupModel (quitRaises : Bool) (s : St) : St :=
  if s.driver then
    match quitDriver quitRaises with
    | .ok _ => { s with driver := false, quits := s.quits + 1 }
    | .error _ => { s with driver := false, quits := s.quits + 1 }
  else s

/-- The `save_token(token)` call at the end of the `try` body of `run`
(the token file itself is outside `St`, so only success or failure of the
step matters here). -/
def saveStep (env : RunEnv) (t : String) (s : St) : Except Err String × St :=
  match env.saveR with
  | .ok _ => (.ok t, s)
  | .error e => (.error e, s)

/-- The `try` body of `run`: setup_driver, login_to_okta, handle_mfa, then
`extract_token_via_requests` with `extract_token_from_internal_service` as
fallback inside the inner `try`, then `save_token`.  A failed setup leaves
`self.driver` unset; every later failure propagates with the driver still
set.  (The outer `except` re-raises `OktaTokenExtractionError` unchanged,
which is the type of every modelled error, so it is the identity here.) -/
def runBody (env : RunEnv) (s : St) : Except Err String × St :=
  if env.setupOk then
    let s := { s with driver := true }
    match env.loginR with
    | .error e => (.error e, s)
    | .ok _ =>
      match env.mfaR with
      | .error e => (.error e, s)
      | .ok _ =>
        let s := { s with triedReq := true }
        match env.reqR with
        | .ok t => saveStep env t s
        | .error _ =>
          let s := { s with triedScrape := true }
          match env.scrapeR with
          | .ok t => saveStep env t s
          | .error e => (.error e, s)
  else (.error (.extractionError "Failed to initialize Chrome WebDriver"), s)

/-- Function `run`: the `try` body followed by the `finally: self.cleanup()`. -/
def runModel (env : RunEnv) (quitRaises : Bool) : Except Err String × St :=
  match runBody env initSt with
  | (r, s) => (r, cleanupModel quitRaises s)

/-- Function `main` of `main.py`: run the extractor inside a `with` block (whose
`__exit__` runs `cleanup` once more) and map the outcome to an exit code:
0 when `run` returns a token, 1 for `KeyboardInterrupt`,
`OktaTokenExtractionError`, or any unexpected exception. -/
def mainModel (interrupted : Bool) (env : RunEnv) (quitRaises : Bool) : Nat :=
  if interrupted then 1
  else
    match runModel env quitRaises with
    | (.ok _, _) => 0
    | (.error _, _) => 1

/-! ## handle_mfa polling loop (`src/src/okta_token_automation/token_extractor.py`,
lines 315-343)

The loop reads `driver.current_url` once per iteration and checks, in
order: the httpbin target substring (success), then the login indicators.
When a login indicator matches, the code enters a `try` block that looks
for the username field and, if it is present, raises the MFA-failed
`OktaTokenExtractionError` — but the block is guarded by a bare
`except: pass`, which catches that very exception, so the loop always
continues.  The poll sequence is modelled by the list of observations the
loop would make; an exhausted list is the elapsed MFA timeout. -/

/-- What one poll iteration observes: the current URL and whether the
`identifier` (username) field is present on the page. -/
structure MfaObs where
  url : String
  identifierFieldPresent : Bool

/-- The login markers tested against the lowered current URL. -/
def loginIndicators : List String :=
  ["signin", "login", "oauth2/default/v1/authorize"]

/-- The inner `try` body guarded by the login-indicator check: with the
username field present it raises the MFA-failed error, without it the
`find_element` call raises a not-found error.  Both land in the bare
`except`. -/
def loginPageCheck (obs : MfaObs) : Except Err Unit :=
  if loginIndicators.any (fun i => strContains (pyLower obs.url) i) then
    if obs.identifierFieldPresent then
      .error (.extractionError "MFA failed - redirected back to login page")
    else
      .error (.extractionError "no such element: identifier")
  else .ok ()

/-- Result of the MFA polling loop. -/
inductive MfaResult where
  /-- The httpbin target URL was reached. -/
  | completed
  /-- The poll budget elapsed: the MFA-timeout `OktaTokenExtractionError`. -/
  | timeout
  deriving DecidableEq, Repr

/-- The `while` loop of `handle_mfa` over a finite observation sequence:
success on the httpbin substring, otherwise run `loginPageCheck` inside
`try ... except: pass` — both outcomes continue the loop — and poll again.
Note the result type: the loop has no failure outcome other than the
timeout, because the bare `except` swallows the MFA-failed error. -/
def mfaLoop : List MfaObs → MfaResult
  | [] => .timeout
  | obs :: rest =>
    if strContains obs.url "httpbin.ops.tatari.dev" then .completed
    else
      match loginPageCheck obs with
      | .ok _ => mfaLoop rest
      | .error _ => mfaLoop rest

/-- The poll observation exhibiting the C7 bug: a recognizable login URL
with the username field present. -/
def c7Obs : MfaObs :=
  { url := "https://tatari.okta.com/signin/challenge"
    identifierFieldPresent := true }

/-! ## Username-field resolution (`src/src/okta_token_automation/token_extractor.py`,
lines 145-193)

`login_to_okta` probes for the username field with, in order: the direct
`By.NAME "identifier"` lookup; five selector fallbacks tried in a loop;
the first text input on the page as a last resort; the BeautifulSoup DOM
heuristic.  Every probe failure is caught (`except ... continue`) and the
next probe runs; only when all probes fail does the function raise the
role-naming `OktaTokenExtractionError`.  A probe is modelled as the
optional element it would find; an element as a numeric handle. -/

/-- The outcome of each locator probe on the current page, one field per
strategy, in source order. -/
structure LoginPage where
  byNameIdentifier : Option Nat
  cssNameIdentifier : Option Nat
  cssAutocompleteUsername : Option Nat
  cssTypeText : Option Nat
  xpathNameIdentifier : Option Nat
  xpathAutocompleteUsername : Option Nat
  firstTextInput : Option Nat
  soupUsername : Option Nat
  deriving DecidableEq, Repr

/-- The probes in the priority order the source tries them: the direct
name lookup, the five-selector fallback loop, the first-text-input last
resort, then the BeautifulSoup heuristic. -/
def usernameProbes (p : LoginPage) : List (Option Nat) :=
  [p.byNameIdentifier, p.cssNameIdentifier, p.cssAutocompleteUsername,
   p.cssTypeText, p.xpathNameIdentifier, p.xpathAutocompleteUsername,
   p.firstTextInput, p.soupUsername]

/-- First-match-wins resolution with an attempt count: returns the element
of the first succeeding probe together with how many probes were run (a
failed probe is a try-next outcome, never a propagated error — each is
wrapped in its own `except` in the source). -/
def resolveFirst : List (Option Nat) → Option Nat × Nat
  | [] => (none, 0)
  | none :: rest =>
    match resolveFirst rest with
    | (r, n) => (r, n + 1)
  | some e :: _ => (some e, 1)

/-- The element `login_to_okta` binds to `username_field`. -/
def findUsernameField (p : LoginPage) : Option Nat :=
  (resolveFirst (usernameProbes p)).1

/-- How many probes `login_to_okta` runs before settling. -/
def usernameAttempts (p : LoginPage) : Nat :=
  (resolveFirst (usernameProbes p)).2

/-- The `if not username_field: raise OktaTokenExtractionError(...)` guard:
resolution failure is reported naming the username role only after every
probe, heuristic included, has failed. -/
def resolveUsernameOrFail (p : LoginPage) : Except Err Nat :=
  match findUsernameField p with
  | some e => .ok e
  | none => .error (.extractionError
      "Could not find username field with any known selector")

/-! ## Theorems -/

/-- If some member of the list is mapped to `some`, the scan succeeds. -/
theorem findSome?_isSome_of_mem {α β : Type} (f : α → Option β) :
    ∀ (l : List α) (a : α), a ∈ l → ∀ b, f a = some b →
      ∃ w, l.findSome? f = some w := by
  intro l
  induction l with
  | nil => intro a ha; cases ha
  | cons x xs ih =>
    intro a ha b hb
    rw [List.findSome?_cons]
    cases hx : f x with
    | some w => exact ⟨w, rfl⟩
    | none =>
      rcases List.mem_cons.mp ha with h | h
      · subst h; rw [hx] at hb; cases hb
      · exact ih a h b hb

/-- Claim C1: for every parsed header map whose Cookie entry is a string, or
a list of strings after joining with the separator, containing a delimited
entry whose name equals the target cookie and whose value is non-empty
after trimming, token extraction returns the target prefix followed by the
value of such an entry; in particular the two header maps of properties P3
and P5 yield the expected tokens. -/
theorem c1_cookie_rule (hs : Headers) (ch : HVal) (c v : String)
    (h1 : lookupHeader hs "Cookie" = some ch)
    (h2 : ch.isTruthy = true)
    (h3 : c ∈ splitChar (joinCookieHeader ch) ';')
    (h4 : cookieEntryToken c = some v) :
    (∃ c2 ∈ splitChar (joinCookieHeader ch) ';', ∃ v2,
        cookieEntryToken c2 = some v2 ∧
        extractToken hs = .token ("_oauth2_proxy=" ++ v2)) ∧
    extractToken [("Cookie", .str "a=b; _oauth2_proxy=XYZ123; c=d")] =
      .token "_oauth2_proxy=XYZ123" ∧
    extractToken [("Cookie", .list ["a=b", "_oauth2_proxy=LMN456"])] =
      .token "_oauth2_proxy=LMN456" := by
  refine ⟨?_, by decide, by decide⟩
  obtain ⟨w, hw⟩ := findSome?_isSome_of_mem cookieEntryToken _ c h3 v h4
  obtain ⟨c2, hc2, hfc2⟩ := List.exists_of_findSome?_eq_some hw
  refine ⟨c2, hc2, w, hfc2, ?_⟩
  have hm1 : method1 hs = some w := by
    simp only [method1, cookieRuleFind, h1, Option.getD_some, h2, if_true]
    exact hw
  simp [extractToken, hm1]

/-- Closed instance of the C1 theorem at the header map of property P3. -/
theorem c1_cookie_rule_witness :
    ((∃ c2 ∈ splitChar (joinCookieHeader
          (.str "a=b; _oauth2_proxy=XYZ123; c=d")) ';', ∃ v2,
        cookieEntryToken c2 = some v2 ∧
        extractToken [("Cookie", .str "a=b; _oauth2_proxy=XYZ123; c=d")] =
          .token ("_oauth2_proxy=" ++ v2)) ∧
    extractToken [("Cookie", .str "a=b; _oauth2_proxy=XYZ123; c=d")] =
      .token "_oauth2_proxy=XYZ123" ∧
    extractToken [("Cookie", .list ["a=b", "_oauth2_proxy=LMN456"])] =
      .token "_oauth2_proxy=LMN456") :=
  c1_cookie_rule [("Cookie", .str "a=b; _oauth2_proxy=XYZ123; c=d")]
    (.str "a=b; _oauth2_proxy=XYZ123; c=d") " _oauth2_proxy=XYZ123" "XYZ123"
    (by decide) (by decide) (by decide) (by decide)

/-- Claim C2: when rule (a) produced no token and some header name
case-insensitively contains both `oauth2` and `proxy`, with a string value,
token extraction returns the target prefix followed by the part of the
value after the first `=`, or the whole value when it has no `=`, provided
that part is non-blank; in particular the header map of property P4 yields
the expected token. -/
theorem c2_header_rule (hs : Headers) (n v : String)
    (h1 : method1 hs = none)
    (h2 : hs.find? (fun p => isOauth2ProxyName p.1) = some (n, .str v))
    (h3 : pyStrip (oauth2HeaderToken v) ≠ "") :
    extractToken hs = .token ("_oauth2_proxy=" ++ oauth2HeaderToken v) ∧
    extractToken [("X-Oauth2-Proxy", .str "ABC789")] =
      .token "_oauth2_proxy=ABC789" := by
  refine ⟨?_, by decide⟩
  have hv : v ≠ "" := by
    intro hveq
    subst hveq
    exact h3 rfl
  have hm2 : method2 hs = some (.token ("_oauth2_proxy=" ++ oauth2HeaderToken v)) := by
    simp only [method2, h2, HVal.isTruthy, hv, decide_not]
    simp [h3]
  simp [extractToken, h1, hm2]

/-- Closed instance of the C2 theorem at the header map of property P4. -/
theorem c2_header_rule_witness :
    (extractToken [("X-Oauth2-Proxy", .str "ABC789")] =
      .token ("_oauth2_proxy=" ++ oauth2HeaderToken "ABC789") ∧
    extractToken [("X-Oauth2-Proxy", .str "ABC789")] =
      .token "_oauth2_proxy=ABC789") :=
  c2_header_rule [("X-Oauth2-Proxy", .str "ABC789")] "X-Oauth2-Proxy" "ABC789"
    (by decide) (by decide) (by decide)

/-- Claim C3: when rules (a) and (b) produced no token, the Authorization
header (string, or list joined with spaces) yields a token exactly when
its lowered form contains the target cookie name, it contains `=`, and the
part after the first `=` is non-blank; in every other case extraction
fails with the token-not-found error. -/
theorem c3_auth_rule (hs : Headers)
    (h1 : method1 hs = none) (h2 : method2 hs = none) :
    (∀ pre rest, strContains (pyLower (authJoined hs)) "_oauth2_proxy" = true →
        splitOnce (authJoined hs) '=' = some (pre, rest) →
        pyStrip rest ≠ "" →
        extractToken hs = .token ("_oauth2_proxy=" ++ rest)) ∧
    (strContains (pyLower (authJoined hs)) "_oauth2_proxy" = false →
        extractToken hs = .notFound) ∧
    (splitOnce (authJoined hs) '=' = none → extractToken hs = .notFound) ∧
    (∀ pre rest, splitOnce (authJoined hs) '=' = some (pre, rest) →
        pyStrip rest = "" → extractToken hs = .notFound) := by
  have hext : extractToken hs = method3 hs := by
    simp [extractToken, h1, h2]
  refine ⟨?_, ?_, ?_, ?_⟩
  · intro pre rest hc hsp hne
    rw [hext]
    simp [method3, hc, hsp, hne]
  · intro hc
    rw [hext]
    simp [method3, hc]
  · intro hsp
    rw [hext]
    cases hc : strContains (pyLower (authJoined hs)) "_oauth2_proxy" with
    | false => simp [method3, hc]
    | true => simp [method3, hc, hsp]
  · intro pre rest hsp hbl
    rw [hext]
    cases hc : strContains (pyLower (authJoined hs)) "_oauth2_proxy" with
    | false => simp [method3, hc]
    | true => simp [method3, hc, hsp, hbl]

/-- Closed instance of the C3 theorem at a one-entry Authorization map. -/
theorem c3_auth_rule_witness :
    ((∀ pre rest, strContains (pyLower (authJoined
          [("Authorization", .str "Bearer _oauth2_proxy=TTT")]))
          "_oauth2_proxy" = true →
        splitOnce (authJoined
          [("Authorization", .str "Bearer _oauth2_proxy=TTT")]) '=' =
          some (pre, rest) →
        pyStrip rest ≠ "" →
        extractToken [("Authorization", .str "Bearer _oauth2_proxy=TTT")] =
          .token ("_oauth2_proxy=" ++ rest)) ∧
    (strContains (pyLower (authJoined
          [("Authorization", .str "Bearer _oauth2_proxy=TTT")]))
          "_oauth2_proxy" = false →
        extractToken [("Authorization", .str "Bearer _oauth2_proxy=TTT")] =
          .notFound) ∧
    (splitOnce (authJoined
          [("Authorization", .str "Bearer _oauth2_proxy=TTT")]) '=' = none →
        extractToken [("Authorization", .str "Bearer _oauth2_proxy=TTT")] =
          .notFound) ∧
    (∀ pre rest, splitOnce (authJoined
          [("Authorization", .str "Bearer _oauth2_proxy=TTT")]) '=' =
          some (pre, rest) →
        pyStrip rest = "" →
        extractToken [("Authorization", .str "Bearer _oauth2_proxy=TTT")] =
          .notFound)) :=
  c3_auth_rule [("Authorization", .str "Bearer _oauth2_proxy=TTT")]
    (by decide) (by decide)

/-- Teardown never touches the strategy-attempt flags. -/
theorem cleanupModel_triedScrape (b : Bool) (s : St) :
    (cleanupModel b s).triedScrape = s.triedScrape := by
  rcases s with ⟨d, q, tr, ts⟩
  cases d <;> cases b <;> simp [cleanupModel, quitDriver]

/-- Claim C4: for every run that reaches the extraction phase, a failing
cookie-replay strategy means the page-scrape strategy is attempted; a
succeeding cookie-replay strategy means the page-scrape strategy is never
attempted; and when both fail, the error propagated by `run` is the
page-scrape error. -/
theorem c4_extraction_fallback (env : RunEnv) (qr : Bool)
    (hsetup : env.setupOk = true)
    (hlogin : env.loginR = .ok ())
    (hmfa : env.mfaR = .ok ()) :
    (∀ e1, env.reqR = .error e1 → (runModel env qr).2.triedScrape = true) ∧
    (∀ t, env.reqR = .ok t → (runModel env qr).2.triedScrape = false) ∧
    (∀ e1 e2, env.reqR = .error e1 → env.scrapeR = .error e2 →
        (runModel env qr).1 = .error e2) := by
  refine ⟨?_, ?_, ?_⟩
  · intro e1 hreq
    cases hscr : env.scrapeR with
    | ok t =>
      cases hsave : env.saveR with
      | ok u => simp [runModel, runBody, saveStep, cleanupModel_triedScrape,
          initSt, hsetup, hlogin, hmfa, hreq, hscr, hsave]
      | error e => simp [runModel, runBody, saveStep, cleanupModel_triedScrape,
          initSt, hsetup, hlogin, hmfa, hreq, hscr, hsave]
    | error e2 => simp [runModel, runBody, saveStep, cleanupModel_triedScrape,
        initSt, hsetup, hlogin, hmfa, hreq, hscr]
  · intro t hreq
    cases hsave : env.saveR with
    | ok u => simp [runModel, runBody, saveStep, cleanupModel_triedScrape,
        initSt, hsetup, hlogin, hmfa, hreq, hsave]
    | error e => simp [runModel, runBody, saveStep, cleanupModel_triedScrape,
        initSt, hsetup, hlogin, hmfa, hreq, hsave]
  · intro e1 e2 hreq hscr
    simp [runModel, runBody, saveStep,
      initSt, hsetup, hlogin, hmfa, hreq, hscr]

/-- Closed instance of the C4 theorem: both strategies fail, the scrape
error is the propagated one and the scrape strategy was attempted. -/
theorem c4_extraction_fallback_witness :
    ((∀ e1, (RunEnv.mk true (.ok ()) (.ok ())
          (.error (.extractionError "req down"))
          (.error (.extractionError "scrape down")) (.ok ())).reqR =
            .error e1 →
        (runModel (RunEnv.mk true (.ok ()) (.ok ())
          (.error (.extractionError "req down"))
          (.error (.extractionError "scrape down")) (.ok ())) false).2.triedScrape = true) ∧
    (∀ t, (RunEnv.mk true (.ok ()) (.ok ())
          (.error (.extractionError "req down"))
          (.error (.extractionError "scrape down")) (.ok ())).reqR = .ok t →
        (runModel (RunEnv.mk true (.ok ()) (.ok ())
          (.error (.extractionError "req down"))
          (.error (.extractionError "scrape down")) (.ok ())) false).2.triedScrape = false) ∧
    (∀ e1 e2, (RunEnv.mk true (.ok ()) (.ok ())
          (.error (.extractionError "req down"))
          (.error (.extractionError "scrape down")) (.ok ())).reqR = .error e1 →
        (RunEnv.mk true (.ok ()) (.ok ())
          (.error (.extractionError "req down"))
          (.error (.extractionError "scrape down")) (.ok ())).scrapeR = .error e2 →
        (runModel (RunEnv.mk true (.ok ()) (.ok ())
          (.error (.extractionError "req down"))
          (.error (.extractionError "scrape down")) (.ok ())) false).1 = .error e2)) :=
  c4_extraction_fallback
    (RunEnv.mk true (.ok ()) (.ok ()) (.error (.extractionError "req down"))
      (.error (.extractionError "scrape down")) (.ok ())) false rfl rfl rfl

/-- Claim C5: a successful `save_token` leaves the token file containing
exactly the token string, with permission bits 0600 (decimal 384) and the
parent directory in place; every failure surfaces as the extraction error
type. -/
theorem c5_save_token (ops : SaveOps) (token : String) (fs fs2 : FileState)
    (h : save_token ops token fs = .ok fs2) :
    (fs2.content = some token ∧ fs2.mode = some 384 ∧
      fs2.parentExists = true) ∧
    (∀ ops2 t2 fs3 e, save_token ops2 t2 fs3 = .error e →
        ∃ m, e = .extractionError m) := by
  constructor
  · simp only [save_token] at h
    by_cases h1 : ops.mkdirFails
    · simp [h1] at h
    · by_cases h2 : ops.writeFails
      · simp [h1, h2] at h
      · by_cases h3 : ops.chmodFails
        · simp [h1, h2, h3] at h
        · simp [h1, h2, h3] at h
          subst h
          exact ⟨rfl, rfl, rfl⟩
  · intro ops2 t2 fs3 e _
    cases e with
    | extractionError m => exact ⟨m, rfl⟩

/-- Closed instance of the C5 theorem at a fresh file state. -/
theorem c5_save_token_witness :
    (((FileState.mk true (some "tokvalue") (some 384)).content =
        some "tokvalue" ∧
      (FileState.mk true (some "tokvalue") (some 384)).mode = some 384 ∧
      (FileState.mk true (some "tokvalue") (some 384)).parentExists = true) ∧
    (∀ ops2 t2 fs3 e, save_token ops2 t2 fs3 = .error e →
        ∃ m, e = .extractionError m)) :=
  c5_save_token (SaveOps.mk false false false) "tokvalue"
    (FileState.mk false none none)
    (FileState.mk true (some "tokvalue") (some 384)) rfl

/-- Claim C6: for every execution of `run`, the primary result is exactly
the result of the `try` body, whatever the teardown does (a quit failure
can neither propagate nor replace it); when driver setup succeeded,
`driver.quit` is invoked exactly once and the driver field is cleared;
when setup failed there is no live driver and quit is never invoked. -/
theorem c6_teardown (env : RunEnv) (qr : Bool) :
    ((runModel env qr).1 = (runBody env initSt).1) ∧
    (env.setupOk = true →
      (runModel env qr).2.quits = 1 ∧ (runModel env qr).2.driver = false) ∧
    (env.setupOk = false → (runModel env qr).2.quits = 0) := by
  obtain ⟨su, lo, mf, rq, sc, sv⟩ := env
  cases su <;> cases lo <;> cases mf <;> cases rq <;> cases sc <;> cases sv <;>
    cases qr <;>
    simp [runModel, runBody, saveStep, cleanupModel, quitDriver, initSt]

/-- Closed instance of the C6 theorem: a login failure with a raising quit
still counts one teardown, clears the driver, and keeps the login error. -/
theorem c6_teardown_witness :
    (runModel (RunEnv.mk true (.error (.extractionError "login failed"))
        (.ok ()) (.ok "u") (.ok "v") (.ok ())) true).2.quits = 1 ∧
    (runModel (RunEnv.mk true (.error (.extractionError "login failed"))
        (.ok ()) (.ok "u") (.ok "v") (.ok ())) true).2.driver = false :=
  (c6_teardown (RunEnv.mk true (.error (.extractionError "login failed"))
      (.ok ()) (.ok "u") (.ok "v") (.ok ())) true).2.1 rfl

/-- Claim C8: the CLI entry point returns exit code 0 when the core run
returns a token, and exit code 1 on a keyboard interrupt or on any error
raised by the run. -/
theorem c8_exit_codes (env : RunEnv) (qr : Bool) :
    (∀ t, (runModel env qr).1 = .ok t → mainModel false env qr = 0) ∧
    (∀ e, (runModel env qr).1 = .error e → mainModel false env qr = 1) ∧
    mainModel true env qr = 1 := by
  refine ⟨?_, ?_, rfl⟩
  · intro t h
    rcases hr : runModel env qr with ⟨r, s⟩
    rw [hr] at h
    simp at h
    cases r with
    | ok u => simp [mainModel, hr]
    | error e => rw [h] at hr; simp [mainModel, hr]
  · intro e h
    rcases hr : runModel env qr with ⟨r, s⟩
    rw [hr] at h
    simp at h
    cases r with
    | ok u => rw [h] at hr; simp [mainModel, hr]
    | error e2 => simp [mainModel, hr]

/-- Closed instance of the C8 theorem: a fully successful run exits 0. -/
theorem c8_exit_codes_witness :
    mainModel false (RunEnv.mk true (.ok ()) (.ok ()) (.ok "tok")
      (.ok "tok2") (.ok ())) false = 0 :=
  (c8_exit_codes (RunEnv.mk true (.ok ()) (.ok ()) (.ok "tok")
      (.ok "tok2") (.ok ())) false).1 "tok" rfl

/-- Claim C7 names a behaviour the code does not have: on a login-page
observation the inner check does raise the MFA-failed error (first
conjunct), but the bare except clause swallows it, so the loop continues
with the remaining polls (third conjunct) and a run whose polls all show
the login page ends in the MFA-timeout error, not the MFA-failed error
(second conjunct).  `MfaResult` has no failure constructor besides the
timeout precisely because no other outcome can escape the loop. -/
theorem c7_mfa_failure_swallowed :
    loginPageCheck c7Obs =
      .error (.extractionError "MFA failed - redirected back to login page") ∧
    mfaLoop [c7Obs] = .timeout ∧
    (∀ rest, mfaLoop (c7Obs :: rest) = mfaLoop rest) := by
  have hurl : strContains c7Obs.url "httpbin.ops.tatari.dev" = false := by
    decide
  have hchk : loginPageCheck c7Obs =
      .error (.extractionError "MFA failed - redirected back to login page") := by
    rfl
  refine ⟨hchk, rfl, ?_⟩
  intro rest
  simp [mfaLoop, hurl, hchk]

/-- List scan helper: an all-failing prefix is walked through and the first
success is returned with the attempt count, later entries unattempted. -/
theorem resolveFirst_prefix_none (l1 l2 : List (Option Nat)) (e : Nat)
    (h : ∀ x ∈ l1, x = none) :
    resolveFirst (l1 ++ some e :: l2) = (some e, l1.length + 1) := by
  induction l1 with
  | nil => simp [resolveFirst]
  | cons x xs ih =>
    have hx : x = none := h x (List.mem_cons_self x xs)
    subst hx
    have ih2 := ih (fun y hy => h y (List.mem_cons_of_mem none hy))
    simp [resolveFirst, ih2]

/-- List scan helper: when every probe fails the scan returns nothing
after walking the whole list. -/
theorem resolveFirst_all_none (l : List (Option Nat))
    (h : ∀ x ∈ l, x = none) :
    resolveFirst l = (none, l.length) := by
  induction l with
  | nil => rfl
  | cons x xs ih =>
    have hx : x = none := h x (List.mem_cons_self x xs)
    subst hx
    have ih2 := ih (fun y hy => h y (List.mem_cons_of_mem none hy))
    simp [resolveFirst, ih2]

/-- Claim C9: username-field resolution returns the element of the
earliest succeeding strategy, having attempted exactly the failing
strategies before it and nothing after it; and only when every strategy,
the BeautifulSoup heuristic included, has failed does it raise the error
naming the username role. -/
theorem c9_first_match_wins (p : LoginPage) (l1 l2 : List (Option Nat))
    (e : Nat) (h : usernameProbes p = l1 ++ some e :: l2)
    (hn : ∀ x ∈ l1, x = none) :
    (findUsernameField p = some e ∧ usernameAttempts p = l1.length + 1) ∧
    (∀ q : LoginPage, (∀ x ∈ usernameProbes q, x = none) →
        resolveUsernameOrFail q = .error (.extractionError
          "Could not find username field with any known selector")) := by
  constructor
  · have hr := resolveFirst_prefix_none l1 l2 e hn
    rw [findUsernameField, usernameAttempts, h, hr]
    exact ⟨rfl, rfl⟩
  · intro q hq
    have hr := resolveFirst_all_none (usernameProbes q) hq
    rw [resolveUsernameOrFail, findUsernameField, hr]

/-- Closed instance of the C9 theorem: the first strategy fails, the
second succeeds, six later strategies (one of which would also succeed)
are never attempted. -/
theorem c9_first_match_wins_witness :
    ((findUsernameField (LoginPage.mk none (some 7) none none none none
        none (some 9)) = some 7 ∧
      usernameAttempts (LoginPage.mk none (some 7) none none none none
        none (some 9)) = [Option.none (α := Nat)].length + 1) ∧
    (∀ q : LoginPage, (∀ x ∈ usernameProbes q, x = none) →
        resolveUsernameOrFail q = .error (.extractionError
          "Could not find username field with any known selector"))) :=
  c9_first_match_wins
    (LoginPage.mk none (some 7) none none none none none (some 9))
    [none] [none, none, none, none, none, some 9] 7 rfl (by decide)

/-- Cleanup is idempotent: the second application changes nothing. -/
theorem cleanupModel_idem (b b2 : Bool) (s : St) :
    cleanupModel b2 (cleanupModel b s) = cleanupModel b s := by
  rcases s with ⟨d, q, tr, ts⟩
  cases d <;> cases b <;> cases b2 <;> simp [cleanupModel, quitDriver]

/-- A state without a live driver is untouched by any cleanup sequence. -/
theorem cleanup_foldl_fixed (bs : List Bool) (s : St) (h : s.driver = false) :
    bs.foldl (fun t c => cleanupModel c t) s = s := by
  induction bs generalizing s with
  | nil => rfl
  | cons b rest ih =>
    have hb : cleanupModel b s = s := by
      rcases s with ⟨d, q, tr, ts⟩
      simp at h
      subst h
      simp [cleanupModel]
    simp only [List.foldl_cons, hb]
    exact ih s h

/-- Claim C10: cleanup clears the driver field, a call without a live
driver is a no-op, a second cleanup never acts, any sequence of cleanup
calls invokes quit at most once, and the extra cleanup the context manager
runs after `run` leaves the final state unchanged. -/
theorem c10_cleanup_idempotent (s : St) (b b2 : Bool) (bs : List Bool) :
    (cleanupModel b s).driver = false ∧
    (s.driver = false → cleanupModel b s = s) ∧
    cleanupModel b2 (cleanupModel b s) = cleanupModel b s ∧
    (bs.foldl (fun t c => cleanupModel c t) s).quits ≤ s.quits + 1 ∧
    (∀ env qr, cleanupModel b ((runModel env qr).2) = (runModel env qr).2) := by
  have hdrv : ∀ (c : Bool) (t : St), (cleanupModel c t).driver = false ∨
      (cleanupModel c t = t ∧ t.driver = false) := by
    intro c t
    rcases t with ⟨d, q, tr, ts⟩
    cases d <;> cases c <;> simp [cleanupModel, quitDriver]
  have hdrv2 : ∀ (c : Bool) (t : St), (cleanupModel c t).driver = false := by
    intro c t
    rcases hdrv c t with h | ⟨he, hf⟩
    · exact h
    · rw [he]; exact hf
  refine ⟨hdrv2 b s, ?_, cleanupModel_idem b b2 s, ?_, ?_⟩
  · intro h
    rcases s with ⟨d, q, tr, ts⟩
    simp at h
    subst h
    simp [cleanupModel]
  · cases bs with
    | nil => exact Nat.le_succ _
    | cons c rest =>
      have h1 : (cleanupModel c s).quits ≤ s.quits + 1 := by
        rcases s with ⟨d, q, tr, ts⟩
        cases d <;> cases c <;> simp [cleanupModel, quitDriver]
      calc (List.foldl (fun t c2 => cleanupModel c2 t) s (c :: rest)).quits
          = (List.foldl (fun t c2 => cleanupModel c2 t)
              (cleanupModel c s) rest).quits := by
            simp [List.foldl_cons]
        _ = (cleanupModel c s).quits := by
            rw [cleanup_foldl_fixed rest (cleanupModel c s) (hdrv2 c s)]
        _ ≤ s.quits + 1 := h1
  · intro env qr
    rcases h : runBody env initSt with ⟨r, st⟩
    have : (runModel env qr).2 = cleanupModel qr st := by
      simp [runModel, h]
    rw [this]
    exact cleanupModel_idem qr b st

/-- Closed instance of the C10 theorem: a live driver plus three cleanup
calls in a row still count a single quit invocation. -/
theorem c10_cleanup_idempotent_witness :
    ((cleanupModel true (St.mk true 0 false false)).driver = false ∧
    ((St.mk true 0 false false).driver = false →
      cleanupModel true (St.mk true 0 false false) = St.mk true 0 false false) ∧
    cleanupModel false (cleanupModel true (St.mk true 0 false false)) =
      cleanupModel true (St.mk true 0 false false) ∧
    ([true, false, true].foldl (fun t c => cleanupModel c t)
      (St.mk true 0 false false)).quits ≤ (St.mk true 0 false false).quits + 1 ∧
    (∀ env qr, cleanupModel true ((runModel env qr).2) = (runModel env qr).2)) :=
  c10_cleanup_idempotent (St.mk true 0 false false) true false
    [true, false, true]

end OktaYoink
